import Mathlib

/-!
Verification of the OpenTelemetry tracing wrapper module
`google/cloud/spanner_v1/_opentelemetry_tracing.py` of python-spanner.

The Python module is shallowly embedded below:

* Python dicts holding span attributes become association lists
  (`Attrs`) with dict-faithful `get` / `pop` / assignment / `update`
  operations;
* the module-level constants `HAS_OPENTELEMETRY_INSTALLED` and
  `extended_tracing_globally_disabled` (frozen at import time) become
  explicit `Bool` parameters of each embedded function;
* Python truthiness of optional strings (`if not name`, `if sql`) is
  modelled by `pyTruthy` / `pyStrFalsy`: `None` and the empty string are
  falsy, every other string truthy;
* the out-of-scope OpenTelemetry SDK surface that the module calls into
  (`Span.set_status`, `use_span.__exit__`, span construction) is modelled
  from the observable SDK contract that the module itself documents in
  its comments: `set_status` ignores a change when the current status is
  OK or when the new status is UNSET (so UNSET and ERROR are both
  overwritable), and scope exit with an exception records the exception
  once and sets an ERROR status before ending the span;
* a unit of work wrapped by `trace_call` becomes a function from the
  yielded optional span to a `WorkResult`: the span state it leaves
  behind plus the exception it raises, if any.
-/

/-- Status codes of an OpenTelemetry span status. -/
inductive StatusCode where
  | unset
  | ok
  | error
deriving DecidableEq, Repr

/-- An OpenTelemetry `Status`: a code plus an optional description. -/
structure SpanStatus where
  code : StatusCode
  description : Option String
deriving DecidableEq, Repr

/-- Span kinds; the module only ever starts CLIENT spans. -/
inductive SpanKind where
  | client
  | server
  | internal
deriving DecidableEq, Repr

/-- A Python exception value: its type name and its message (`str(exc)`). -/
structure PyExc where
  ty : String
  msg : String
deriving DecidableEq, Repr

/-- A tracer provider: either the process-wide global provider or an
injected one (distinguished by an id, as in the system test that injects
an in-memory provider). -/
inductive Provider where
  | globalProvider
  | injected (id : Nat)
deriving DecidableEq, Repr

/-- A tracer handle, identified by the provider it came from and the
library name/version it was requested with. -/
structure Tracer where
  provider : Provider
  name : String
  version : String
deriving DecidableEq, Repr

/-- The `NameError` raised when a Python name (here the unimported
`trace` module) is not defined. -/
inductive PyRuntimeError where
  | nameError
deriving DecidableEq, Repr

/-- The `_database` attribute of a session: an object carrying a database
name. -/
structure Database where
  name : String
deriving DecidableEq, Repr

/-- A session-like handle: `getattr(session, "_database", None)` becomes
an optional `Database`. -/
structure Session where
  _database : Option Database
deriving DecidableEq, Repr

/-- The `observability_options` argument: absent (`None`), a non-dict
object such as a `mock.Mock` (ignored for option extraction), or a dict
with the three optional keys the module reads. -/
inductive ObsOptions where
  | absent
  | mock
  | dict (tracer_provider : Option Provider) (enable_extended_tracing : Option Bool)
      (db_name : Option String)
deriving DecidableEq, Repr

/-- A span attribute map: a Python dict from string keys to string
values, embedded as an association list without duplicate keys. -/
abbrev Attrs := List (String × String)

/-- Python `d.get(k, None)`: the value of the first entry with key `k`. -/
def attrGet : Attrs → String → Option String
  | [], _ => none
  | p :: t, k => if p.1 = k then some p.2 else attrGet t k

/-- Python `d.pop(k, False)` used for its removal effect: drop every
entry with key `k`. -/
def attrPop : Attrs → String → Attrs
  | [], _ => []
  | p :: t, k => if p.1 = k then attrPop t k else p :: attrPop t k

/-- Python `d[k] = v`: overwrite the entry with key `k` in place, or
append a new entry when the key is absent. -/
def attrSet : Attrs → String → String → Attrs
  | [], k, v => [(k, v)]
  | p :: t, k, v => if p.1 = k then (k, v) :: t else p :: attrSet t k v

/-- Python `d.update(e)`: assign every entry of `e` into `d` in order. -/
def attrUpdate (m e : Attrs) : Attrs :=
  e.foldl (fun acc p => attrSet acc p.1 p.2) m

/-- Python truthiness of an optional string: `None` and `""` are falsy. -/
def pyTruthy : Option String → Bool
  | none => false
  | some s => !(s = "")

/-- Python `not name` on an optional string argument. -/
def pyStrFalsy (s : Option String) : Bool :=
  !(pyTruthy s)

/-- The fixed library name `TRACER_NAME` of the module. -/
def TRACER_NAME : String := "cloud.google.com/python/spanner"

/-- Modelled from the spec: the library version string
`gapic_version.__version__` (the `gapic_version.py` file is not under
src); its concrete value is immaterial to every claim. -/
def TRACER_VERSION : String := "3.51.0"

/-- Modelled from the spec: `SpannerClient.DEFAULT_ENDPOINT`, the default
endpoint constant of the generated client (not under src). -/
def DEFAULT_ENDPOINT : String := "spanner.googleapis.com"

/-- Attribute key constant of the external semconv package. -/
def OTEL_SCOPE_NAME : String := "otel.scope.name"

/-- Attribute key constant of the external semconv package. -/
def OTEL_SCOPE_VERSION : String := "otel.scope.version"

/-- Python `str.lower()`, embedded as a character-wise lowercase map
(structurally recursive so that concrete values reduce). -/
def pyLower (s : String) : String :=
  ⟨s.data.map Char.toLower⟩

/-- Module-level toggle `extended_tracing_globally_disabled`, computed
once from the environment variable `SPANNER_ENABLE_EXTENDED_TRACING`
(`env_value = none` models an unset variable):
`os.getenv("SPANNER_ENABLE_EXTENDED_TRACING", "").lower() == "false"`. -/
def extended_tracing_globally_disabled (env_value : Option String) : Bool :=
  pyLower (env_value.getD "") = "false"

/-- The `get_tracer` function. `hasOtel` is the module-level
`HAS_OPENTELEMETRY_INSTALLED` flag: when the OpenTelemetry import failed
and no provider is given, the body `trace.get_tracer_provider()`
references the undefined name `trace` and raises a `NameError`. -/
def get_tracer (hasOtel : Bool) (tracer_provider : Option Provider) :
    Except PyRuntimeError Tracer :=
  match tracer_provider with
  | some tp => .ok { provider := tp, name := TRACER_NAME, version := TRACER_VERSION }
  | none =>
    if hasOtel then
      .ok { provider := .globalProvider, name := TRACER_NAME, version := TRACER_VERSION }
    else
      .error .nameError

/-- The `tracer_provider` local of `_make_tracer_and_span_attributes`:
`None`, overridden by `observability_options.get("tracer_provider")`
when the options are a dict. -/
def resolve_tracer_provider : ObsOptions → Option Provider
  | .dict tp _ _ => tp
  | _ => none

/-- The `db_name` local of `_make_tracer_and_span_attributes`: `""`,
then the session database name when `session and session._database` is
truthy, then `observability_options.get("db_name")` when the options are
a dict containing that key. -/
def resolve_db_name (session : Option Session) (observability_options : ObsOptions) :
    String :=
  let db_name :=
    match session with
    | some s =>
      match s._database with
      | some d => d.name
      | none => ""
    | none => ""
  match observability_options with
  | .dict _ _ (some n) => n
  | _ => db_name

/-- The `enable_extended_tracing` local of
`_make_tracer_and_span_attributes`: default `True`, overridden by the
dict field when present, forced to `False` when
`extended_tracing_globally_disabled` holds. -/
def resolve_enable_extended_tracing (globally_disabled : Bool)
    (observability_options : ObsOptions) : Bool :=
  let enable_extended_tracing :=
    match observability_options with
    | .dict _ (some b) _ => b
    | _ => true
  if globally_disabled then false else enable_extended_tracing

/-- The base attribute dict literal of
`_make_tracer_and_span_attributes`. -/
def base_attributes (db_name : String) : Attrs :=
  [("db.type", "spanner"),
   ("db.url", DEFAULT_ENDPOINT),
   ("db.instance", db_name),
   ("net.host.name", DEFAULT_ENDPOINT),
   (OTEL_SCOPE_NAME, TRACER_NAME),
   (OTEL_SCOPE_VERSION, TRACER_VERSION)]

/-- The `if extra_attributes: attributes.update(extra_attributes)` step
(an absent or empty dict is falsy and leaves the base untouched). -/
def merged_attributes (db_name : String) (extra_attributes : Option Attrs) : Attrs :=
  let attributes := base_attributes db_name
  match extra_attributes with
  | some e => if e.isEmpty then attributes else attrUpdate attributes e
  | none => attributes

/-- The redaction/normalization tail of
`_make_tracer_and_span_attributes`: when extended tracing is disabled,
pop `db.statement` and `sql`; when enabled and `db.statement` is falsy
while `sql` is truthy, move the `sql` value to `db.statement`. -/
def apply_sql_policy (enable_extended_tracing : Bool) (attributes : Attrs) : Attrs :=
  if !enable_extended_tracing then
    attrPop (attrPop attributes "db.statement") "sql"
  else
    let db_statement := attrGet attributes "db.statement"
    if pyTruthy db_statement then attributes
    else
      match attrGet attributes "sql" with
      | some sql =>
        if sql = "" then attributes
        else attrSet (attrPop attributes "sql") "db.statement" sql
      | none => attributes

/-- The `_make_tracer_and_span_attributes` function. `hasOtel` is
`HAS_OPENTELEMETRY_INSTALLED`; `globally_disabled` is the module-level
`extended_tracing_globally_disabled` value. In the `true` branch the
`trace` module is importable, so `get_tracer` is called with the
capability present. -/
def make_tracer_and_span_attributes (hasOtel globally_disabled : Bool)
    (session : Option Session) (extra_attributes : Option Attrs)
    (observability_options : ObsOptions) : Option Tracer × Option Attrs :=
  match hasOtel with
  | false => (none, none)
  | true =>
    let tracer :=
      match get_tracer true (resolve_tracer_provider observability_options) with
      | .ok t => some t
      | .error _ => none
    let enabled := resolve_enable_extended_tracing globally_disabled observability_options
    let attributes :=
      apply_sql_policy enabled
        (merged_attributes (resolve_db_name session observability_options) extra_attributes)
    (tracer, some attributes)

/-- A span as the module observes it: name, kind, attribute dict, status,
the exceptions recorded on it, the events attached to it, and whether it
has been ended. -/
structure Span where
  name : String
  kind : SpanKind
  attributes : Attrs
  status : SpanStatus
  recorded_exceptions : List PyExc
  events : List (String × Option Attrs)
  ended : Bool
deriving DecidableEq, Repr

/-- A freshly started span: status UNSET, no recorded exceptions, no
events, not ended (`tracer.start_span` / `tracer.start_as_current_span`). -/
def Span.start (name : String) (kind : SpanKind) (attributes : Attrs) : Span :=
  { name := name, kind := kind, attributes := attributes,
    status := { code := .unset, description := none },
    recorded_exceptions := [], events := [], ended := false }

/-- Modelled external SDK method `Span.set_status`, with the contract the
module itself documents (comments at the end of `trace_call`): the call
is ignored when the current status code is OK or when the new status code
is UNSET; otherwise the status (UNSET or ERROR) is overwritten. -/
def Span.set_status (s : Span) (st : SpanStatus) : Span :=
  if s.status.code = StatusCode.ok ∨ st.code = StatusCode.unset then s
  else { s with status := st }

/-- Modelled external SDK method `Span.record_exception`: appends the
exception to the span. -/
def Span.record_exception (s : Span) (e : PyExc) : Span :=
  { s with recorded_exceptions := s.recorded_exceptions ++ [e] }

/-- Modelled external SDK method `Span.add_event`: appends a named,
optionally attributed event. -/
def Span.add_event (s : Span) (event_name : String) (attributes : Option Attrs) : Span :=
  { s with events := s.events ++ [(event_name, attributes)] }

/-- Modelled external SDK method `Span.end`: marks the span ended. -/
def Span.end_span (s : Span) : Span :=
  { s with ended := true }

/-- Modelled external SDK scope exit (`use_span.__exit__`, also the exit
of `start_as_current_span`, both with `record_exception=True`,
`set_status_on_exception=True`, `end_on_exit=True`): on an exception it
records the exception once and sets an ERROR status whose description is
the exception type and message, then it ends the span. -/
def use_span_exit (s : Span) (exc : Option PyExc) : Span :=
  let s :=
    match exc with
    | some e =>
      Span.set_status (Span.record_exception s e)
        { code := .error, description := some (e.ty ++ ": " ++ e.msg) }
    | none => s
  Span.end_span s

/-- The outcome of a caller-supplied unit of work wrapped by
`trace_call`: the span state the block leaves behind (the same span
object it was yielded, possibly mutated) and the exception it raises, if
any. -/
structure WorkResult where
  span : Option Span
  exc : Option PyExc
deriving Repr

/-- The `except` handler of `trace_call` (before re-raising): set the
span status to ERROR with the string form of the error as description. -/
def trace_call_on_exception (s : Span) (error : PyExc) : Span :=
  Span.set_status s { code := .error, description := some error.msg }

/-- The `else` branch of `trace_call`: set the status to OK only when the
current status code is still UNSET. -/
def trace_call_on_normal_exit (s : Span) : Span :=
  if s.status.code = StatusCode.unset then
    Span.set_status s { code := .ok, description := none }
  else s

/-- The `trace_call` context manager, run against a unit of work `work`.
With a falsy name, or with no tracer (OpenTelemetry absent), it yields
`none` to the work and produces no span; otherwise it starts a CLIENT
span with the built attributes, yields it to the work, and finalizes:
on an exception it applies the `except` handler and re-raises into the
scope exit, on normal completion it applies the `else` branch. The result
is the finalized span (if one was produced) and the propagated
exception (if any). -/
def trace_call (name : Option String) (hasOtel globally_disabled : Bool)
    (session : Option Session) (extra_attributes : Option Attrs)
    (observability_options : ObsOptions) (work : Option Span → WorkResult) :
    Option Span × Option PyExc :=
  if pyStrFalsy name then (none, (work none).exc)
  else
    match make_tracer_and_span_attributes hasOtel globally_disabled session
        extra_attributes observability_options with
    | (none, _) => (none, (work none).exc)
    | (some _, span_attributes) =>
      let span := Span.start (name.getD "") SpanKind.client (span_attributes.getD [])
      let r := work (some span)
      let s := r.span.getD span
      match r.exc with
      | some error =>
        (some (use_span_exit (trace_call_on_exception s error) (some error)), some error)
      | none =>
        (some (use_span_exit (trace_call_on_normal_exit s) none), none)

/-- The `trace_call_end_lazily` function up to returning the `discard`
finalizer: with a falsy name or no tracer it returns `none` (no span is
started); otherwise it starts a CLIENT span with the built attributes
and enters its scope. The returned value is the started span the
`discard` closure captures. -/
def trace_call_end_lazily (name : Option String) (hasOtel globally_disabled : Bool)
    (session : Option Session) (extra_attributes : Option Attrs)
    (observability_options : ObsOptions) : Option Span :=
  if pyStrFalsy name then none
  else
    match make_tracer_and_span_attributes hasOtel globally_disabled session
        extra_attributes observability_options with
    | (none, _) => none
    | (some _, span_attributes) =>
      some (Span.start (name.getD "") SpanKind.client (span_attributes.getD []))

/-- The `discard` finalizer returned by `trace_call_end_lazily`, applied
to the span state at invocation time: with no exception info it calls
`span.set_status(Status(StatusCode.OK))` unconditionally, then it exits
the scope (`ctx_manager.__exit__`) with the given exception info. -/
def discard (span : Span) (exc : Option PyExc) : Span :=
  let span :=
    match exc with
    | none => Span.set_status span { code := StatusCode.ok, description := none }
    | some _ => span
  use_span_exit span exc

/-- The `set_span_status_error` helper: no-op on a null span. -/
def set_span_status_error (span : Option Span) (error : PyExc) : Option Span :=
  match span with
  | some s => some (Span.set_status s { code := .error, description := some error.msg })
  | none => none

/-- The `set_span_status_ok` helper: no-op on a null span. -/
def set_span_status_ok (span : Option Span) : Option Span :=
  match span with
  | some s => some (Span.set_status s { code := .ok, description := none })
  | none => none

/-- The `get_current_span` function: `current` is the ambient active span
of the SDK context; with OpenTelemetry absent the function returns `None`
before touching the SDK. -/
def get_current_span (hasOtel : Bool) (current : Option Span) : Option Span :=
  if hasOtel then current else none

/-- The `add_span_event` helper: no-op on a null span. -/
def add_span_event (span : Option Span) (event_name : String)
    (event_attributes : Option Attrs) : Option Span :=
  match span with
  | some s => some (Span.add_event s event_name event_attributes)
  | none => none

/-- The `add_event_on_current_span` helper: falls back to the current
active span when no span is given, then adds the event if a span is at
hand. -/
def add_event_on_current_span (hasOtel : Bool) (current : Option Span)
    (event_name : String) (attributes : Option Attrs) (span : Option Span) :
    Option Span :=
  let span :=
    match span with
    | none => get_current_span hasOtel current
    | some s => some s
  add_span_event span event_name attributes

/-- The `record_span_exception_and_status` helper: no-op on a null span,
otherwise sets an ERROR status with the string form of the exception and
records the exception. -/
def record_span_exception_and_status (span : Option Span) (exc : PyExc) : Option Span :=
  match span with
  | some s =>
    some (Span.record_exception
      (Span.set_status s { code := .error, description := some exc.msg }) exc)
  | none => none

theorem attrGet_attrPop_self (m : Attrs) (k : String) :
    attrGet (attrPop m k) k = none := by
  induction m with
  | nil => rfl
  | cons p t ih =>
    by_cases h : p.1 = k
    · simp [attrPop, h, ih]
    · simp [attrPop, attrGet, h, ih]

theorem attrGet_attrPop_ne (m : Attrs) (k k' : String) (h : k' ≠ k) :
    attrGet (attrPop m k) k' = attrGet m k' := by
  induction m with
  | nil => rfl
  | cons p t ih =>
    by_cases hp : p.1 = k
    · simp [attrPop, attrGet, hp, Ne.symm h, ih]
    · by_cases hq : p.1 = k'
      · simp [attrPop, attrGet, hp, hq, h]
      · simp [attrPop, attrGet, hp, hq, h, ih]

theorem attrGet_attrSet_self (m : Attrs) (k v : String) :
    attrGet (attrSet m k v) k = some v := by
  induction m with
  | nil => simp [attrSet, attrGet]
  | cons p t ih =>
    by_cases h : p.1 = k
    · simp [attrSet, attrGet, h]
    · simp [attrSet, attrGet, h, ih]

theorem attrGet_attrSet_ne (m : Attrs) (k k' v : String) (h : k' ≠ k) :
    attrGet (attrSet m k v) k' = attrGet m k' := by
  induction m with
  | nil => simp [attrSet, attrGet, Ne.symm h]
  | cons p t ih =>
    by_cases hp : p.1 = k
    · simp [attrSet, attrGet, hp, Ne.symm h]
    · by_cases hq : p.1 = k'
      · simp [attrSet, attrGet, hp, hq, h, ih]
      · simp [attrSet, attrGet, hp, hq, h, ih]

theorem attrGet_attrUpdate_of_forall (m e : Attrs) (k : String)
    (h : ∀ p ∈ e, p.1 ≠ k) :
    attrGet (attrUpdate m e) k = attrGet m k := by
  induction e generalizing m with
  | nil => rfl
  | cons p t ih =>
    have hp : p.1 ≠ k := h p (by simp)
    have ht : ∀ q ∈ t, q.1 ≠ k := fun q hq => h q (by simp [hq])
    calc attrGet (attrUpdate m (p :: t)) k
        = attrGet (attrUpdate (attrSet m p.1 p.2) t) k := rfl
      _ = attrGet (attrSet m p.1 p.2) k := ih (attrSet m p.1 p.2) ht
      _ = attrGet m k := attrGet_attrSet_ne m p.1 k p.2 (fun hc => hp hc.symm)

theorem attrGet_attrUpdate_isSome (m e : Attrs) (k : String)
    (h : (attrGet m k).isSome = true) :
    (attrGet (attrUpdate m e) k).isSome = true := by
  induction e generalizing m with
  | nil => exact h
  | cons p t ih =>
    by_cases hp : p.1 = k
    · exact ih (attrSet m p.1 p.2) (by simp [hp, attrGet_attrSet_self])
    · exact ih (attrSet m p.1 p.2)
        (by rw [attrGet_attrSet_ne m p.1 k p.2 (fun hc => hp hc.symm)]; exact h)

theorem attrGet_attrUpdate_of_get (m e : Attrs) (k v : String)
    (hnd : (e.map Prod.fst).Nodup) (h : attrGet e k = some v) :
    attrGet (attrUpdate m e) k = some v := by
  induction e generalizing m with
  | nil => simp [attrGet] at h
  | cons p t ih =>
    by_cases hp : p.1 = k
    · have hv : p.2 = v := by
        simpa [attrGet, hp] using h
      have hnotin : ∀ q ∈ t, q.1 ≠ k := by
        intro q hq hc
        have : p.1 ∈ t.map Prod.fst := by
          rw [hp, ← hc]
          exact List.mem_map_of_mem Prod.fst hq
        simp only [List.map_cons, List.nodup_cons] at hnd
        exact hnd.1 this
      rw [attrUpdate, List.foldl_cons, ← attrUpdate,
        attrGet_attrUpdate_of_forall _ t k hnotin, hp, hv,
        attrGet_attrSet_self]
    · have ht : attrGet t k = some v := by
        simpa [attrGet, hp] using h
      have hnd' : (t.map Prod.fst).Nodup := by
        simp only [List.map_cons, List.nodup_cons] at hnd
        exact hnd.2
      rw [attrUpdate, List.foldl_cons, ← attrUpdate]
      exact ih (attrSet m p.1 p.2) hnd' ht

theorem attrGet_base_db_instance (db_name : String) :
    attrGet (base_attributes db_name) "db.instance" = some db_name := by
  simp [base_attributes, attrGet]

theorem attrGet_base_sql (db_name : String) :
    attrGet (base_attributes db_name) "sql" = none := by
  simp [base_attributes, attrGet, OTEL_SCOPE_NAME, OTEL_SCOPE_VERSION]

theorem attrGet_base_db_statement (db_name : String) :
    attrGet (base_attributes db_name) "db.statement" = none := by
  simp [base_attributes, attrGet, OTEL_SCOPE_NAME, OTEL_SCOPE_VERSION]

theorem apply_sql_policy_other_key (b : Bool) (m : Attrs) (k : String)
    (h1 : k ≠ "sql") (h2 : k ≠ "db.statement") :
    attrGet (apply_sql_policy b m) k = attrGet m k := by
  cases b with
  | false =>
    simp only [apply_sql_policy, Bool.not_false, if_pos]
    rw [attrGet_attrPop_ne _ _ _ h1, attrGet_attrPop_ne _ _ _ h2]
  | true =>
    simp only [apply_sql_policy, Bool.not_true, Bool.false_eq_true, if_false]
    by_cases hd : pyTruthy (attrGet m "db.statement")
    · simp [hd]
    · simp only [hd, Bool.false_eq_true, if_false]
      cases hs : attrGet m "sql" with
      | none => rfl
      | some sql =>
        by_cases he : sql = ""
        · simp [he]
        · simp only [he, if_false]
          rw [attrGet_attrSet_ne _ _ _ _ h2, attrGet_attrPop_ne _ _ _ h1]

theorem get_tracer_true_ok (tp : Option Provider) :
    get_tracer true tp =
      .ok { provider := tp.getD Provider.globalProvider,
            name := TRACER_NAME, version := TRACER_VERSION } := by
  cases tp <;> rfl

theorem make_true_eq (gd : Bool) (sess : Option Session) (extra : Option Attrs)
    (obs : ObsOptions) :
    make_tracer_and_span_attributes true gd sess extra obs =
      (some { provider := (resolve_tracer_provider obs).getD Provider.globalProvider,
              name := TRACER_NAME, version := TRACER_VERSION },
       some (apply_sql_policy (resolve_enable_extended_tracing gd obs)
              (merged_attributes (resolve_db_name sess obs) extra))) := by
  simp [make_tracer_and_span_attributes, get_tracer_true_ok]

theorem trace_call_some_name_true (n : String) (hn : ¬ n = "") (gd : Bool)
    (sess : Option Session) (extra : Option Attrs) (obs : ObsOptions)
    (work : Option Span → WorkResult) :
    trace_call (some n) true gd sess extra obs work =
      (let span := Span.start n SpanKind.client
          (apply_sql_policy (resolve_enable_extended_tracing gd obs)
            (merged_attributes (resolve_db_name sess obs) extra))
       let r := work (some span)
       let s := r.span.getD span
       match r.exc with
       | some error =>
         (some (use_span_exit (trace_call_on_exception s error) (some error)), some error)
       | none =>
         (some (use_span_exit (trace_call_on_normal_exit s) none), none)) := by
  simp [trace_call, pyStrFalsy, pyTruthy, hn, make_true_eq]

/-- C1: for the scoped call wrapper `trace_call`, a unit of work that
completes normally propagates no exception; when the span status is
still UNSET after the work, the wrapper sets it to OK, and when the work
already set a status (for example ERROR), the wrapper leaves the status
unchanged, so the final status is that one and not OK. -/
theorem C1_trace_call_ok_only_when_unset (n : String) (hn : ¬ n = "")
    (gd : Bool) (sess : Option Session) (extra : Option Attrs) (obs : ObsOptions)
    (f : Span → Span) (m : Attrs)
    (hm : (make_tracer_and_span_attributes true gd sess extra obs).2 = some m) :
    (trace_call (some n) true gd sess extra obs
        (fun os => { span := os.map f, exc := none })).2 = none
    ∧ ((f (Span.start n SpanKind.client m)).status.code = StatusCode.unset →
        (trace_call (some n) true gd sess extra obs
            (fun os => { span := os.map f, exc := none })).1.map Span.status =
          some { code := StatusCode.ok, description := none })
    ∧ ((f (Span.start n SpanKind.client m)).status.code ≠ StatusCode.unset →
        (trace_call (some n) true gd sess extra obs
            (fun os => { span := os.map f, exc := none })).1.map Span.status =
          some (f (Span.start n SpanKind.client m)).status) := by
  have hm' : m = apply_sql_policy (resolve_enable_extended_tracing gd obs)
      (merged_attributes (resolve_db_name sess obs) extra) := by
    rw [make_true_eq] at hm
    exact (Option.some.inj hm).symm
  subst hm'
  rw [trace_call_some_name_true n hn gd sess extra obs]
  refine ⟨rfl, fun h => ?_, fun h => ?_⟩
  · simp [use_span_exit, Span.end_span, trace_call_on_normal_exit, h, Span.set_status]
  · simp [use_span_exit, Span.end_span, trace_call_on_normal_exit, h]

/-- Witness for C1 at the tested scenario: span "VerifyBehavior", work
that sets status ERROR with description "Our error exhibit", normal
scope exit; the final status is that ERROR status, not OK. -/
theorem C1_witness :
    (trace_call (some "VerifyBehavior") true false none none ObsOptions.absent
        (fun os =>
          { span := os.map (fun s => Span.set_status s
                { code := StatusCode.error, description := some "Our error exhibit" }),
            exc := none })).1.map Span.status =
      some { code := StatusCode.error, description := some "Our error exhibit" } := by
  have h := C1_trace_call_ok_only_when_unset "VerifyBehavior" (by decide) false none none
      ObsOptions.absent
      (fun s => Span.set_status s
        { code := StatusCode.error, description := some "Our error exhibit" })
      ((make_tracer_and_span_attributes true false none none ObsOptions.absent).2.getD [])
      rfl
  exact (h.2.2 (by decide)).trans (by decide)

theorem set_status_recorded (s : Span) (st : SpanStatus) :
    (Span.set_status s st).recorded_exceptions = s.recorded_exceptions := by
  unfold Span.set_status
  split <;> rfl

theorem set_status_status_of_not_ok (s : Span) (st : SpanStatus)
    (h1 : ¬ s.status.code = StatusCode.ok) (h2 : ¬ st.code = StatusCode.unset) :
    (Span.set_status s st).status = st := by
  have hcond : ¬ (s.status.code = StatusCode.ok ∨ st.code = StatusCode.unset) := by
    rintro (hc | hc)
    exacts [h1 hc, h2 hc]
  unfold Span.set_status
  rw [if_neg hcond]

theorem end_span_status (s : Span) : (Span.end_span s).status = s.status := rfl

theorem end_span_recorded (s : Span) :
    (Span.end_span s).recorded_exceptions = s.recorded_exceptions := rfl

theorem record_exception_status (s : Span) (e : PyExc) :
    (Span.record_exception s e).status = s.status := rfl

theorem record_exception_recorded (s : Span) (e : PyExc) :
    (Span.record_exception s e).recorded_exceptions = s.recorded_exceptions ++ [e] := rfl

theorem use_span_exit_none (s : Span) : use_span_exit s none = Span.end_span s := rfl

theorem use_span_exit_some (s : Span) (e : PyExc) :
    use_span_exit s (some e) =
      Span.end_span (Span.set_status (Span.record_exception s e)
        { code := .error, description := some (e.ty ++ ": " ++ e.msg) }) := rfl

theorem on_exception_recorded (s : Span) (e : PyExc) :
    (trace_call_on_exception s e).recorded_exceptions = s.recorded_exceptions :=
  set_status_recorded s _

theorem on_exception_status_of_not_ok (s : Span) (e : PyExc)
    (h : ¬ s.status.code = StatusCode.ok) :
    (trace_call_on_exception s e).status =
      { code := StatusCode.error, description := some e.msg } :=
  set_status_status_of_not_ok s _ h (by simp)

theorem trace_call_exc_eq (n : String) (hn : ¬ n = "") (gd : Bool)
    (sess : Option Session) (extra : Option Attrs) (obs : ObsOptions)
    (f : Span → Span) (e : PyExc) (m : Attrs)
    (hm : (make_tracer_and_span_attributes true gd sess extra obs).2 = some m) :
    trace_call (some n) true gd sess extra obs
        (fun os => { span := os.map f, exc := some e }) =
      (some (use_span_exit
          (trace_call_on_exception (f (Span.start n SpanKind.client m)) e) (some e)),
       some e) := by
  have hm' : m = apply_sql_policy (resolve_enable_extended_tracing gd obs)
      (merged_attributes (resolve_db_name sess obs) extra) := by
    rw [make_true_eq] at hm
    exact (Option.some.inj hm).symm
  subst hm'
  exact trace_call_some_name_true n hn gd sess extra obs
    (fun os => { span := os.map f, exc := some e })

/-- C3: for the scoped call wrapper `trace_call`, when the unit of work
raises: the original error is propagated unchanged, exactly one
exception record is added beyond those the work itself recorded (the
wrapper does not record a second one on top of the scope-exit
recording), the final status code is ERROR (whenever the work had not
terminally set OK), and the except handler of the wrapper sets status
ERROR carrying the string form of the error as its description. -/
theorem C3_trace_call_exception (n : String) (hn : ¬ n = "") (gd : Bool)
    (sess : Option Session) (extra : Option Attrs) (obs : ObsOptions)
    (f : Span → Span) (e : PyExc) (m : Attrs)
    (hm : (make_tracer_and_span_attributes true gd sess extra obs).2 = some m) :
    (trace_call (some n) true gd sess extra obs
        (fun os => { span := os.map f, exc := some e })).2 = some e
    ∧ (trace_call (some n) true gd sess extra obs
        (fun os => { span := os.map f, exc := some e })).1.map Span.recorded_exceptions =
        some ((f (Span.start n SpanKind.client m)).recorded_exceptions ++ [e])
    ∧ ((f (Span.start n SpanKind.client m)).status.code ≠ StatusCode.ok →
        (trace_call (some n) true gd sess extra obs
            (fun os => { span := os.map f, exc := some e })).1.map
          (fun s => s.status.code) = some StatusCode.error)
    ∧ (∀ s : Span, s.status.code ≠ StatusCode.ok →
        (trace_call_on_exception s e).status =
          { code := StatusCode.error, description := some e.msg }) := by
  rw [trace_call_exc_eq n hn gd sess extra obs f e m hm]
  refine ⟨rfl, ?_, fun h => ?_, fun s hs => on_exception_status_of_not_ok s e hs⟩
  · show some (use_span_exit
        (trace_call_on_exception (f (Span.start n SpanKind.client m)) e)
        (some e)).recorded_exceptions = _
    rw [use_span_exit_some, end_span_recorded, set_status_recorded,
      record_exception_recorded, on_exception_recorded]
  · show some (use_span_exit
        (trace_call_on_exception (f (Span.start n SpanKind.client m)) e)
        (some e)).status.code = some StatusCode.error
    rw [use_span_exit_some, end_span_status, set_status_status_of_not_ok]
    · rw [record_exception_status, on_exception_status_of_not_ok _ e h]
      simp
    · simp

/-- Witness for C3: a work that raises ValueError "boom" out of span
"op"; the error is re-raised unchanged, the status code ends up ERROR,
and the except handler produces status ERROR with description "boom". -/
theorem C3_witness :
    (trace_call (some "op") true false none none ObsOptions.absent
        (fun os => { span := os.map id, exc := some { ty := "ValueError", msg := "boom" } })).2 =
      some { ty := "ValueError", msg := "boom" }
    ∧ (trace_call (some "op") true false none none ObsOptions.absent
        (fun os => { span := os.map id, exc := some { ty := "ValueError", msg := "boom" } })).1.map
        (fun s => s.status.code) = some StatusCode.error
    ∧ (trace_call_on_exception (Span.start "op" SpanKind.client
          ((make_tracer_and_span_attributes true false none none ObsOptions.absent).2.getD []))
        { ty := "ValueError", msg := "boom" }).status =
      { code := StatusCode.error, description := some "boom" } := by
  have h := C3_trace_call_exception "op" (by decide) false none none ObsOptions.absent id
      { ty := "ValueError", msg := "boom" }
      ((make_tracer_and_span_attributes true false none none ObsOptions.absent).2.getD [])
      rfl
  exact ⟨h.1, h.2.2.1 (by decide),
    h.2.2.2 (Span.start "op" SpanKind.client
      ((make_tracer_and_span_attributes true false none none ObsOptions.absent).2.getD []))
      (by decide)⟩

/-- C8: with an empty or null span name, `trace_call` is a pure
pass-through: it produces no span, yields null to the caller's block and
propagates exactly the exception of the block; and
`trace_call_end_lazily` returns null without starting a span. -/
theorem C8_falsy_name_passthrough (nm : Option String) (h : pyStrFalsy nm = true)
    (hasOtel gd : Bool) (sess : Option Session) (extra : Option Attrs)
    (obs : ObsOptions) (work : Option Span → WorkResult) :
    trace_call nm hasOtel gd sess extra obs work = (none, (work none).exc)
    ∧ trace_call_end_lazily nm hasOtel gd sess extra obs = none := by
  constructor
  · simp [trace_call, h]
  · simp [trace_call_end_lazily, h]

/-- Witness for C8 with the empty name and a block raising ValueError
"exhibit": nothing is traced and the exception passes through. -/
theorem C8_witness :
    trace_call (some "") true false none none ObsOptions.absent
        (fun _ => { span := none, exc := some { ty := "ValueError", msg := "exhibit" } }) =
      (none, some { ty := "ValueError", msg := "exhibit" })
    ∧ trace_call_end_lazily (some "") true false none none ObsOptions.absent = none :=
  C8_falsy_name_passthrough (some "") (by decide) true false none none ObsOptions.absent
    (fun _ => { span := none, exc := some { ty := "ValueError", msg := "exhibit" } })

/-- C2 (code bug exhibit): take the span started by
`trace_call_end_lazily` for name "VerifyBehavior"; let the unit of work
set its status to ERROR with description "Our error exhibit"; invoke the
`discard` finalizer with no exception info. The finalizer calls
`span.set_status(Status(StatusCode.OK))` without checking for an already
set status, and under the SDK rule the module itself documents (a status
change is allowed while the current code is UNSET or ERROR) the ERROR
status is overwritten: the final status is OK, violating the stated
invariant that no code path may move a span from ERROR to OK. -/
theorem C2_discard_overwrites_error :
    (trace_call_end_lazily (some "VerifyBehavior") true false none none
        ObsOptions.absent).map
      (fun s => (discard (Span.set_status s
          { code := StatusCode.error, description := some "Our error exhibit" })
        none).status) =
      some { code := StatusCode.ok, description := none } := by
  decide

theorem attrGet_none_forall (e : Attrs) (k : String) (h : attrGet e k = none) :
    ∀ p ∈ e, p.1 ≠ k := by
  induction e with
  | nil => simp
  | cons q t ih =>
    simp only [attrGet] at h
    by_cases hq : q.1 = k
    · rw [if_pos hq] at h
      exact absurd h (by simp)
    · rw [if_neg hq] at h
      intro p hp
      rcases List.mem_cons.mp hp with hp | hp
      · rw [hp]
        exact hq
      · exact ih h p hp

theorem merged_db_instance_isSome (d : String) (extra : Option Attrs) :
    (attrGet (merged_attributes d extra) "db.instance").isSome = true := by
  cases extra with
  | none => simp [merged_attributes, attrGet_base_db_instance]
  | some e =>
    by_cases he : e.isEmpty
    · simp [merged_attributes, he, attrGet_base_db_instance]
    · simp only [merged_attributes, he, if_false]
      exact attrGet_attrUpdate_isSome _ e _ (by rw [attrGet_base_db_instance]; rfl)

theorem merged_other_key (d : String) (extra : Option Attrs) (k : String)
    (h : ∀ p ∈ extra.getD [], p.1 ≠ k) :
    attrGet (merged_attributes d extra) k = attrGet (base_attributes d) k := by
  cases extra with
  | none => rfl
  | some e =>
    by_cases he : e.isEmpty
    · simp [merged_attributes, he]
    · simp only [merged_attributes, he, if_false]
      exact attrGet_attrUpdate_of_forall _ e k h

/-- C4: `enable_extended_tracing` defaults to true when no per-call field
is given (options absent, non-dict, or a dict without the field); the
process-wide environment toggle disables extended tracing exactly when
the variable value case-insensitively equals "false" and an unset
variable leaves the default enabled; and with the process-wide toggle
set, the resolved value is false for every per-call configuration,
including one with an explicit true field: global disable cannot be
re-enabled per call. -/
theorem C4_extended_tracing_resolution :
    (∀ tp dbn, resolve_enable_extended_tracing false (ObsOptions.dict tp none dbn) = true)
    ∧ resolve_enable_extended_tracing false ObsOptions.absent = true
    ∧ resolve_enable_extended_tracing false ObsOptions.mock = true
    ∧ (∀ v, extended_tracing_globally_disabled (some v) = decide (pyLower v = "false"))
    ∧ extended_tracing_globally_disabled none = false
    ∧ extended_tracing_globally_disabled (some "FALSE") = true
    ∧ extended_tracing_globally_disabled (some "0") = false
    ∧ (∀ obs, resolve_enable_extended_tracing true obs = false) := by
  exact ⟨fun tp dbn => rfl, rfl, rfl, fun v => rfl, by decide, by decide, by decide,
    fun obs => rfl⟩

/-- C5: whenever extended tracing resolves as disabled (globally or per
call), the attribute map built by the attribute builder contains no SQL
text under either alias: neither "sql" nor "db.statement" is present. -/
theorem C5_no_sql_when_disabled (gd : Bool) (sess : Option Session)
    (extra : Option Attrs) (obs : ObsOptions)
    (h : resolve_enable_extended_tracing gd obs = false) :
    ∃ m, (make_tracer_and_span_attributes true gd sess extra obs).2 = some m
      ∧ attrGet m "sql" = none ∧ attrGet m "db.statement" = none := by
  refine ⟨_, rfl, ?_, ?_⟩
  · rw [h]
    show attrGet (attrPop (attrPop
      (merged_attributes (resolve_db_name sess obs) extra) "db.statement") "sql")
      "sql" = none
    exact attrGet_attrPop_self _ _
  · rw [h]
    show attrGet (attrPop (attrPop
      (merged_attributes (resolve_db_name sess obs) extra) "db.statement") "sql")
      "db.statement" = none
    rw [attrGet_attrPop_ne _ _ _ (by decide)]
    exact attrGet_attrPop_self _ _

/-- Witness for C5: global disable with a "sql" extra; the built map has
no SQL key under either alias. -/
theorem C5_witness :
    ∃ m, (make_tracer_and_span_attributes true true none
        (some [("sql", "SELECT 1")]) ObsOptions.absent).2 = some m
      ∧ attrGet m "sql" = none ∧ attrGet m "db.statement" = none :=
  C5_no_sql_when_disabled true none (some [("sql", "SELECT 1")]) ObsOptions.absent rfl

/-- C6 counterexample: with `enable_extended_tracing=True` and extras
containing the entry ("sql", ""), the built attribute map does not get a
"db.statement" entry with that value and still carries the "sql" key:
the falsy sql value is not promoted, refuting the claim for this input. -/
theorem C6_counterexample :
    ¬ (attrGet ((make_tracer_and_span_attributes true false none
          (some [("sql", "")]) (ObsOptions.dict none (some true) none)).2.getD [])
        "db.statement" = some ""
      ∧ attrGet ((make_tracer_and_span_attributes true false none
          (some [("sql", "")]) (ObsOptions.dict none (some true) none)).2.getD [])
        "sql" = none) := by
  decide

/-- C6 (amended): with the process-wide toggle off, a per-call
configuration with `enable_extended_tracing=True`, and extras (with
unique keys) containing a non-empty "sql" entry and no "db.statement"
entry, the built map contains "db.statement" equal to that sql value and
no "sql" key. -/
theorem C6_sql_promoted (sess : Option Session) (e : Attrs) (tp : Option Provider)
    (dbn : Option String) (v : String)
    (hnd : (e.map Prod.fst).Nodup) (hv : ¬ v = "")
    (hsql : attrGet e "sql" = some v) (hds : attrGet e "db.statement" = none) :
    ∃ m, (make_tracer_and_span_attributes true false sess (some e)
        (ObsOptions.dict tp (some true) dbn)).2 = some m
      ∧ attrGet m "db.statement" = some v ∧ attrGet m "sql" = none := by
  have hne : e ≠ [] := by
    intro hnil
    rw [hnil] at hsql
    simp [attrGet] at hsql
  have hie : e.isEmpty = false := by
    cases e with
    | nil => exact absurd rfl hne
    | cons q t => rfl
  have hforall : ∀ p ∈ e, p.1 ≠ "db.statement" := attrGet_none_forall e _ hds
  have hM1 : attrGet (attrUpdate (base_attributes
      (resolve_db_name sess (ObsOptions.dict tp (some true) dbn))) e) "sql" = some v :=
    attrGet_attrUpdate_of_get _ e _ v hnd hsql
  have hM2 : attrGet (attrUpdate (base_attributes
      (resolve_db_name sess (ObsOptions.dict tp (some true) dbn))) e)
      "db.statement" = none := by
    rw [attrGet_attrUpdate_of_forall _ e _ hforall]
    exact attrGet_base_db_statement _
  have hr : resolve_enable_extended_tracing false (ObsOptions.dict tp (some true) dbn) =
      true := rfl
  have hmg : merged_attributes (resolve_db_name sess (ObsOptions.dict tp (some true) dbn))
      (some e) =
      attrUpdate (base_attributes
        (resolve_db_name sess (ObsOptions.dict tp (some true) dbn))) e := by
    simp [merged_attributes, hie]
  have hpol : apply_sql_policy true (attrUpdate (base_attributes
      (resolve_db_name sess (ObsOptions.dict tp (some true) dbn))) e) =
      attrSet (attrPop (attrUpdate (base_attributes
        (resolve_db_name sess (ObsOptions.dict tp (some true) dbn))) e) "sql")
        "db.statement" v := by
    simp [apply_sql_policy, hM2, hM1, pyTruthy, hv]
  refine ⟨_, rfl, ?_, ?_⟩
  · show attrGet (apply_sql_policy
        (resolve_enable_extended_tracing false (ObsOptions.dict tp (some true) dbn))
        (merged_attributes (resolve_db_name sess (ObsOptions.dict tp (some true) dbn))
          (some e))) "db.statement" = some v
    rw [hr, hmg, hpol]
    exact attrGet_attrSet_self _ _ _
  · show attrGet (apply_sql_policy
        (resolve_enable_extended_tracing false (ObsOptions.dict tp (some true) dbn))
        (merged_attributes (resolve_db_name sess (ObsOptions.dict tp (some true) dbn))
          (some e))) "sql" = none
    rw [hr, hmg, hpol, attrGet_attrSet_ne _ _ _ _ (by decide)]
    exact attrGet_attrPop_self _ _

/-- Witness for C6 (amended) at extras [("sql", "SELECT 1")]. -/
theorem C6_witness :
    ∃ m, (make_tracer_and_span_attributes true false none
        (some [("sql", "SELECT 1")]) (ObsOptions.dict none (some true) none)).2 = some m
      ∧ attrGet m "db.statement" = some "SELECT 1" ∧ attrGet m "sql" = none :=
  C6_sql_promoted none [("sql", "SELECT 1")] none none "SELECT 1"
    (by decide) (by decide) (by decide) (by decide)

/-- C7 counterexample: `get_tracer`, called with the tracing capability
absent and no injected provider, raises a NameError (the body references
the unimported tracing module unconditionally) instead of returning
null without raising. -/
theorem C7_counterexample :
    get_tracer false none = Except.error PyRuntimeError.nameError := rfl

/-- C7 (amended): with the tracing capability absent, every public
function of the module other than `get_tracer` returns null or is a
no-op and never raises: the builder returns (null, null), both call
wrappers produce no span (the scoped one yields null to the block and
passes the block exception through unchanged), `get_current_span`
returns null, and each status/event helper is a no-op on the null span
it would be handed in this regime; `get_tracer` itself is excluded,
since without a provider it raises a NameError. -/
theorem C7_degraded_noop (gd : Bool) (sess : Option Session) (extra : Option Attrs)
    (obs : ObsOptions) (nm : Option String) (work : Option Span → WorkResult)
    (e : PyExc) (en : String) (ea : Option Attrs) (cur : Option Span) :
    make_tracer_and_span_attributes false gd sess extra obs = (none, none)
    ∧ trace_call nm false gd sess extra obs work = (none, (work none).exc)
    ∧ trace_call_end_lazily nm false gd sess extra obs = none
    ∧ get_current_span false cur = none
    ∧ set_span_status_error none e = none
    ∧ set_span_status_ok none = none
    ∧ add_span_event none en ea = none
    ∧ add_event_on_current_span false cur en ea none = none
    ∧ record_span_exception_and_status none e = none := by
  refine ⟨rfl, ?_, ?_, rfl, rfl, rfl, rfl, rfl, rfl⟩
  · cases h : pyStrFalsy nm with
    | true => simp [trace_call, h]
    | false => simp [trace_call, h, make_tracer_and_span_attributes]
  · cases h : pyStrFalsy nm with
    | true => simp [trace_call_end_lazily, h]
    | false => simp [trace_call_end_lazily, h, make_tracer_and_span_attributes]

/-- C9: the "db.instance" attribute is always present in the built map;
when the extras do not touch that key its value is the resolved database
name, which is the empty string with neither a session database nor a
configured db_name, the session database name when only a session is
supplied, and the db_name of a dict configuration regardless of the
session. -/
theorem C9_db_instance (gd : Bool) (sess : Option Session) (extra : Option Attrs)
    (obs : ObsOptions) :
    (∃ m, (make_tracer_and_span_attributes true gd sess extra obs).2 = some m
      ∧ (attrGet m "db.instance").isSome = true)
    ∧ ((∀ p ∈ extra.getD [], p.1 ≠ "db.instance") →
        attrGet ((make_tracer_and_span_attributes true gd sess extra obs).2.getD [])
          "db.instance" = some (resolve_db_name sess obs))
    ∧ resolve_db_name none ObsOptions.absent = ""
    ∧ (∀ tp eet, resolve_db_name none (ObsOptions.dict tp eet none) = "")
    ∧ (∀ n, resolve_db_name (some { _database := some { name := n } })
        ObsOptions.absent = n)
    ∧ (∀ s2 tp eet d, resolve_db_name s2 (ObsOptions.dict tp eet (some d)) = d) := by
  refine ⟨⟨_, rfl, ?_⟩, fun hx => ?_, rfl, fun tp eet => rfl, fun n => rfl,
    fun s2 tp eet d => rfl⟩
  · show (attrGet (apply_sql_policy (resolve_enable_extended_tracing gd obs)
        (merged_attributes (resolve_db_name sess obs) extra)) "db.instance").isSome = true
    rw [apply_sql_policy_other_key _ _ _ (by decide) (by decide)]
    exact merged_db_instance_isSome _ extra
  · show attrGet (apply_sql_policy (resolve_enable_extended_tracing gd obs)
        (merged_attributes (resolve_db_name sess obs) extra)) "db.instance" =
      some (resolve_db_name sess obs)
    rw [apply_sql_policy_other_key _ _ _ (by decide) (by decide),
      merged_other_key _ extra _ hx, attrGet_base_db_instance]

/-- Witness for C9: a session with a database name and extras not
touching "db.instance"; the built map carries that name. -/
theorem C9_witness :
    attrGet ((make_tracer_and_span_attributes true false
        (some { _database := some { name := "projects/p/instances/i/databases/d" } })
        (some [("x", "y")]) ObsOptions.absent).2.getD []) "db.instance" =
      some "projects/p/instances/i/databases/d" := by
  have h := (C9_db_instance false
      (some { _database := some { name := "projects/p/instances/i/databases/d" } })
      (some [("x", "y")]) ObsOptions.absent).2.1 (by decide)
  exact h.trans (by decide)

/-- C10: limits of sql normalization with extended tracing enabled: the
enabled branch leaves the attribute map completely unchanged — so an
accompanying "sql" entry is retained unmodified — both when a truthy
"db.statement" value is already present and when the "sql" value is the
falsy empty string (never promoted), and with no "sql" key there is
nothing to promote; so promotion happens only with a falsy or absent
"db.statement" and a truthy "sql". -/
theorem C10_sql_promotion_limits (m : Attrs) :
    (pyTruthy (attrGet m "db.statement") = true → apply_sql_policy true m = m)
    ∧ (attrGet m "sql" = some "" → apply_sql_policy true m = m)
    ∧ (attrGet m "sql" = none → apply_sql_policy true m = m) := by
  refine ⟨fun h => ?_, fun h => ?_, fun h => ?_⟩
  · simp [apply_sql_policy, h]
  · by_cases hd : pyTruthy (attrGet m "db.statement")
    · simp [apply_sql_policy, hd]
    · simp [apply_sql_policy, hd, h]
  · by_cases hd : pyTruthy (attrGet m "db.statement")
    · simp [apply_sql_policy, hd]
    · simp [apply_sql_policy, hd, h]

/-- Witness for C10: a map with a truthy db.statement and an empty sql
is unchanged by the enabled branch (through either hypothesis), and a
map with no sql key is unchanged. -/
theorem C10_witness :
    apply_sql_policy true [("db.statement", "SELECT 2"), ("sql", "")] =
        [("db.statement", "SELECT 2"), ("sql", "")]
    ∧ apply_sql_policy true [("db.instance", ""), ("sql", "")] =
        [("db.instance", ""), ("sql", "")]
    ∧ apply_sql_policy true [("db.type", "spanner")] = [("db.type", "spanner")] :=
  ⟨(C10_sql_promotion_limits _).1 (by decide),
   (C10_sql_promotion_limits _).2.1 (by decide),
   (C10_sql_promotion_limits _).2.2 (by decide)⟩
